import Mathlib

/-
  Verification of ardent.py, a build-orchestration script that compiles
  Ardour and its dependency chain on Windows under an MSYS2 shell.

  The script is straight-line code whose only interesting behaviour is the
  sequence of external commands it spawns (git, patch, pacman, python3 waf,
  sh/make, meson) and the errors it raises.  We embed it as a function from
  an abstract world (environment variables, filesystem directory-existence,
  pacman query output, per-command exit codes) to a result together with the
  trace of external-command invocations performed, in order.  Console
  printing (the status function) is informational only and is not part of
  the tracked side effects; the message printed by the top-level handler is
  modelled separately in topLevel.
-/

/-- Path separator used by os.path.sep when joining directories.  The script
runs under MSYS2; the concrete value never matters for any verified
property, only that joining is injective enough to name directories. -/
def sep : String := "/"

/-- Separator used by os.path.pathsep when extending PKG_CONFIG_PATH.  As
with sep, no verified property depends on the concrete value. -/
def pathsep : String := ";"

/-- Python str.split for a one-character separator, on the character list
of a string: splitting on every occurrence of the separator yields one
part per gap, so n separators yield n+1 parts, and a trailing separator
yields a trailing empty part, exactly as in Python.  (Both split calls in
the source use a one-character separator: "/" and "\n".) -/
def pySplit (c : Char) : List Char → List (List Char)
  | [] => [[]]
  | x :: xs =>
      match pySplit c xs with
      | [] => [[]]
      | y :: ys => if x = c then [] :: y :: ys else (x :: y) :: ys

/-- Python str.split for a one-character separator, as a String function. -/
def pySplitOn (c : Char) (s : String) : List String :=
  (pySplit c s.data).map String.mk

/-- Last path segment of a URL: url.split("/")[-1] in the source. -/
def lastSegment (url : String) : String :=
  (pySplitOn ('/') url).getLastD ("")

/-- One external-command invocation, as handed to subprocess.run by the
run helper: the argv list, the optional working directory (cwd kwarg),
the environment overrides merged over os.environ (env kwarg; empty when
the kwarg is absent, since dict(os.environ) | \x7b\x7d = os.environ), and
whether stdout is captured (stdout=subprocess.PIPE). -/
structure Invocation where
  argv : List String
  cwd : Option String
  envMods : List (String × String)
  capture : Bool
deriving DecidableEq

/-- Errors a run of the script can raise.  ardent is the single structured
error kind of the script (class ArdentError); typeError models the Python
TypeError raised when build_ardour concatenates None with a string. -/
inductive ScriptError where
  | ardent (message : String)
  | typeError
deriving DecidableEq

/-- The abstract world a run executes against: os.environ, directory
existence on the filesystem, the stdout produced by each captured command,
and the exit code each spawned command returns. -/
structure World where
  osenv : String → Option String
  isdir : String → Bool
  stdoutOf : Invocation → String
  exitCode : Invocation → Int

/-- The script monad: a computation returns a result (or an error that
propagates uncaught, as no component of the script catches ArdentError)
together with the list of external commands actually spawned, in order.
Commands spawned before a failure remain in the trace. -/
def M (α : Type) : Type := World → Except ScriptError α × List Invocation

/-- Pure computation: no commands spawned. -/
def M.pure {α : Type} (a : α) : M α := fun _ => (Except.ok a, [])

/-- Sequencing: the second computation runs only if the first succeeded;
traces concatenate. -/
def M.bind {α β : Type} (m : M α) (f : α → M β) : M β := fun w =>
  match m w with
  | (Except.ok a, t) =>
      let r := f a w
      (r.1, t ++ r.2)
  | (Except.error e, t) => (Except.error e, t)

/-- Raising an exception: no commands spawned. -/
def M.fail {α : Type} (e : ScriptError) : M α := fun _ => (Except.error e, [])

/-- Reading an environment variable (os.getenv): not a tracked side effect. -/
def getenvM (key : String) : M (Option String) := fun w => (Except.ok (w.osenv key), [])

/-- Testing directory existence (os.path.isdir): not a tracked side effect. -/
def isdirM (path : String) : M Bool := fun w => (Except.ok (w.isdir path), [])

/-- The message carried by the ArdentError that run raises on a non-zero
exit code: contains the exact exit code and the space-joined command line. -/
def failMessage (code : Int) (argv : List String) : String :=
  "\nFailed to run subprocess (exit code " ++ toString code ++ "):\n"
    ++ String.intercalate (" ") argv

/-- The run helper: spawns the command synchronously, then raises
ArdentError if the return code is non-zero, else returns captured stdout.
The command enters the trace whether or not it fails. -/
def run (inv : Invocation) : M String := fun w =>
  if w.exitCode inv = 0 then
    (Except.ok (w.stdoutOf inv), [inv])
  else
    (Except.error (ScriptError.ardent (failMessage (w.exitCode inv) inv.argv)), [inv])

/-- The full environment subprocess.run receives for an invocation:
dict(os.environ) | env, meaning the explicit overrides win over the
inherited environment.  When no env kwarg was passed (envMods = []) this
is just os.environ. -/
def subprocessEnv (w : World) (inv : Invocation) : String → Option String := fun k =>
  match inv.envMods.lookup k with
  | some v => some v
  | none => w.osenv k

/-- The fixed required package set (SYSTEM_DEPENDENCIES in the source).
The source builds a Python set from this generating list; all entries are
distinct, so list membership coincides with set membership, and the
properties verified below are order-independent. -/
def SYSTEM_DEPENDENCIES : List String :=
  (List.map (fun x => "mingw-w64-x86_64-" ++ x) [
    "atk", "atkmm", "binutils", "boost", "c-ares", "ca-certificates",
    "cairo", "cairomm", "cmake", "cppunit", "crt-git", "curl", "dlfcn",
    "docbook-xsl", "fftw", "flac", "fontconfig", "freetype", "gcc",
    "gcc-libs", "gcc-objc", "gdb", "gdb-multiarch", "gdk-pixbuf2",
    "gettext", "glib2", "glibmm", "gnome-common", "gnutls",
    "gobject-introspection", "gtk-doc", "gtk2", "gtkmm", "harfbuzz",
    "headers-git", "icu", "jasper", "jbigkit", "ladspa-sdk", "libgccjit",
    "libidn", "libjpeg-turbo", "libmangle-git", "libogg", "libpng",
    "libsamplerate", "libsigc++", "libsndfile", "libssh2", "libtiff",
    "libusb", "libvorbis", "libxml2", "libwinpthread-git", "lld", "lua",
    "make", "meson", "nasm", "pango", "pangomm", "pcre", "perl", "pixman",
    "pkgconf", "portaudio", "python", "python-setuptools", "rtmpdump-git",
    "rubberband", "shared-mime-info", "soundtouch", "taglib", "tools-git",
    "vamp-plugin-sdk", "wget", "wineditline", "winpthreads-git",
    "winstorecompat-git"]) ++ [
    "autoconf", "autogen", "automake-wrapper", "bison", "dos2unix", "flex",
    "git", "gnome-doc-utils", "gtk-doc", "intltool", "libgnutls-devel",
    "libtool", "libutil-linux-devel", "msys2-runtime-devel", "patch",
    "pkgconf"]

/-- The message of the environment error raised by check_shell. -/
def shellErrorMessage : String :=
  "Ardent should be executed from a MSYS2 shell. If you don\x27t have MSYS2, you can install it from https://www.msys2.org/."

/-- The Environment Guard: os.getenv("MSYSTEM") must equal "MINGW64",
otherwise ArdentError is raised before anything else happens. -/
def check_shell : M Unit :=
  M.bind (getenvM ("MSYSTEM")) (fun v =>
    if v = some ("MINGW64") then M.pure () else M.fail (ScriptError.ardent shellErrorMessage))

/-- The pacman query invocation: run(["pacman", "-Qq"], stdout=subprocess.PIPE). -/
def pacmanQq : Invocation := ⟨["pacman", "-Qq"], none, [], true⟩

/-- Installed-package names as parsed by the script: the stdout of the
pacman query split on newlines, one name per line (the final newline of
the output contributes an empty string, exactly as in Python). -/
def installedPackages (w : World) : List String :=
  pySplitOn ('\n') (w.stdoutOf pacmanQq)

/-- The set difference SYSTEM_DEPENDENCIES - packages computed by
install_package_deps, as a list in the canonical order of the generating
list (Python iterates the set in an unspecified order; every property
verified about it is order-independent). -/
def toInstall (w : World) : List String :=
  SYSTEM_DEPENDENCIES.filter (fun x => decide (x ∉ installedPackages w))

/-- The pacman install invocation for a computed set of missing packages. -/
def pacmanS (pkgs : List String) : Invocation :=
  ⟨["pacman", "-S", "--noconfirm", "--needed"] ++ pkgs, none, [], false⟩

/-- The Package Installer: queries installed packages, computes the set
difference against SYSTEM_DEPENDENCIES and, if non-empty, installs the
missing packages in one batch. -/
def install_package_deps : M Unit :=
  M.bind (run pacmanQq) (fun _ => fun w =>
    (if toInstall w = [] then M.pure () else
      M.bind (run (pacmanS (toInstall w))) (fun _ => M.pure ())) w)

/-- The git clone invocation used by the clone helper. -/
def cloneInv (url targetDir : String) : Invocation :=
  ⟨["git", "clone", "--recurse-submodules", url], some targetDir, [], false⟩

/-- The Repository Fetcher primitive: clones a repository unless the
directory named after the last path segment of the URL already exists
under the target directory.  Returns true exactly when a clone happened. -/
def clone (url : String) (targetDir : String) : M Bool :=
  M.bind (isdirM (targetDir ++ sep ++ lastSegment url)) (fun present =>
    if present then M.pure false
    else M.bind (run (cloneInv url targetDir)) (fun _ => M.pure true))

/-- The patch invocation for a named patch from the patches/ directory. -/
def patchInv (patchName : String) : Invocation :=
  ⟨["patch", "-i", "patches/" ++ patchName, "-p0"], none, [], false⟩

/-- Applies a patch from the patches/ directory. -/
def patch (patchName : String) : M Unit :=
  M.bind (run (patchInv patchName)) (fun _ => M.pure ())

/-- The argv of a waf wrapper invocation: interpreter and script first,
then the fixed subcommand sequence configure build install with the fixed
installation prefix, then the C compiler-check flag if requested, then the
C++ compiler-check flag if requested, then caller-supplied extras. -/
def wafArgv (extra : List String) (wafExe : String) (c cxx : Bool) : List String :=
  ["python3", wafExe, "configure", "build", "install", "--prefix=/mingw64"]
    ++ (if c then ["--check-c-compiler=gcc"] else [])
    ++ (if cxx then ["--check-cxx-compiler=g++"] else [])
    ++ extra

/-- The invocation the waf wrapper spawns. -/
def wafInv (extra : List String) (cwd wafExe : String) (env : List (String × String))
    (c cxx : Bool) : Invocation :=
  ⟨wafArgv extra wafExe c cxx, some cwd, env, false⟩

/-- The custom-build-tool (waf) wrapper: one command, run in the given
working directory with os.environ merged with the given overrides. -/
def waf (extra : List String) (cwd wafExe : String) (env : List (String × String))
    (c cxx : Bool) : M Unit :=
  M.bind (run (wafInv extra cwd wafExe env c cxx)) (fun _ => M.pure ())

/-- The autogen invocation of the autotools wrapper, with the ACLOCAL_PATH
override for macro discovery. -/
def autogenInv (cwd : String) : Invocation :=
  ⟨["sh", "./autogen.sh"], some cwd, [("ACLOCAL_PATH", "/usr/share/aclocal")], false⟩

/-- The make install invocation of the autotools wrapper. -/
def makeInstallInv (cwd : String) : Invocation :=
  ⟨["make", "install"], some cwd, [], false⟩

/-- The autotools wrapper: runs the bootstrap script then make install. -/
def ac (cwd : String) : M Unit :=
  M.bind (run (autogenInv cwd))
    (fun _ => M.bind (run (makeInstallInv cwd)) (fun _ => M.pure ()))

/-- The meson setup invocation, run in the source directory. -/
def mesonSetupInv (cwd : String) : Invocation :=
  ⟨["meson", "setup", "build"], some cwd, [], false⟩

/-- The meson configure invocation with caller-supplied options, run in the
build subdirectory. -/
def mesonConfigureInv (extra : List String) (build : String) : Invocation :=
  ⟨["meson", "configure"] ++ extra, some build, [], false⟩

/-- The meson compile invocation, run in the build subdirectory. -/
def mesonCompileInv (build : String) : Invocation :=
  ⟨["meson", "compile"], some build, [], false⟩

/-- The meson install invocation, run in the build subdirectory. -/
def mesonInstallInv (build : String) : Invocation :=
  ⟨["meson", "install"], some build, [], false⟩

/-- The meson wrapper: runs setup only when the build subdirectory does not
already exist, then always configure (with caller options), compile and
install, each in the build subdirectory. -/
def meson (extra : List String) (cwd : String) : M Unit :=
  let build := cwd ++ sep ++ "build"
  M.bind (isdirM build) (fun present =>
    M.bind (if present then M.pure () else
        M.bind (run (mesonSetupInv cwd)) (fun _ => M.pure ()))
      (fun _ =>
        M.bind (run (mesonConfigureInv extra build)) (fun _ =>
          M.bind (run (mesonCompileInv build)) (fun _ =>
            M.bind (run (mesonInstallInv build)) (fun _ => M.pure ())))))

/-- The Repository Fetcher: clones the fixed list of dependencies into
deps/, applying the associated patches immediately after a fresh clone. -/
def fetch_libraries : M Unit :=
  M.bind (clone ("https://github.com/jackaudio/jack2") ("deps")) (fun _ =>
  M.bind (M.bind (clone ("https://github.com/aubio/aubio") ("deps")) (fun fresh =>
    if fresh then patch ("aubio_priv.h.patch") else M.pure ())) (fun _ =>
  M.bind (clone ("https://github.com/radarsat1/liblo") ("deps")) (fun _ =>
  M.bind (clone ("https://github.com/x42/libltc") ("deps")) (fun _ =>
  M.bind (M.bind (clone ("https://github.com/swh/LRDF") ("deps")) (fun fresh =>
    if fresh then patch ("lrdf_types.h.patch") else M.pure ())) (fun _ =>
  M.bind (M.bind (clone ("https://github.com/dajobe/raptor") ("deps")) (fun fresh =>
    if fresh then patch ("sort_r.h.patch") else M.pure ())) (fun _ =>
  M.bind (M.bind (clone ("https://github.com/lv2/lv2kit") ("deps")) (fun fresh =>
    if fresh then patch ("win_in_gtk2.cpp.patch") else M.pure ())) (fun _ =>
  M.bind (clone ("git://git.ardour.org/ardour/ardour") ("deps")) (fun fresh =>
    if fresh then
      M.bind (patch ("ardour-wscript.patch")) (fun _ =>
        M.bind (patch ("main.cc.patch")) (fun _ => patch ("pbd.cc.patch")))
    else M.pure ()))))))))

/-- The Dependency Builder: builds each fetched dependency in the fixed
order jack2, liblo, libltc, raptor, LRDF, lv2kit, aubio. -/
def build_libraries : M Unit :=
  M.bind (waf [] ("deps/jack2") ("waf") [] true true) (fun _ =>
  M.bind (ac ("deps/liblo")) (fun _ =>
  M.bind (ac ("deps/libltc")) (fun _ =>
  M.bind (ac ("deps/raptor")) (fun _ =>
  M.bind (ac ("deps/LRDF")) (fun _ =>
  M.bind (meson ["-Dcxx=true"] ("deps/lv2kit")) (fun _ =>
    waf ["--disable-tests"] ("deps/aubio") ("../ardour/waf") [] true false))))))

/-- The extended option list build_ardour passes to the waf wrapper. -/
def ardourOptions : List String :=
  ["--prefix=/mingw64", "--configdir=/share", "--check-c-compiler=gcc",
   "--check-cxx-compiler=g++", "--dist-target=mingw", "--no-dr-mingw",
   "--use-lld", "--optimize", "--exports-hidden", "--windows-vst"]

/-- The Application Builder: invokes the waf wrapper on deps/ardour with
the extended option list and an env override appending a library search
path to PKG_CONFIG_PATH.  The Python expression
os.getenv("PKG_CONFIG_PATH") + os.path.pathsep + "C:\\mingw64\\lib\\pkgconfig"
raises a TypeError (None + str) when the variable is unset; that failure
happens while the arguments are being evaluated, before any command is
spawned. -/
def build_ardour : M Unit :=
  M.bind (getenvM ("PKG_CONFIG_PATH")) (fun p =>
    match p with
    | none => M.fail ScriptError.typeError
    | some v =>
        waf ardourOptions ("deps/ardour") ("waf")
          [("PKG_CONFIG_PATH", v ++ pathsep ++ "C:\\mingw64\\lib\\pkgconfig")]
          true true)

/-- The main routine of the script (def main in the source; named
mainScript here because Lean reserves the name main for executables):
guard, install packages, fetch, build libraries, build the application,
strictly in that order. -/
def mainScript : M Unit :=
  M.bind check_shell (fun _ =>
  M.bind install_package_deps (fun _ =>
  M.bind fetch_libraries (fun _ =>
  M.bind build_libraries (fun _ => build_ardour))))

/-- The top-level handler (the __main__ block): an ArdentError escaping
main is printed (modelled as the first component) and then re-raised, so
the process exits non-zero; any other uncaught exception (the TypeError)
also terminates the process non-zero but without the structured report.
Second component is the process exit status. -/
def topLevel (w : World) : Option String × Nat :=
  match (mainScript w).1 with
  | Except.ok _ => (none, 0)
  | Except.error (ScriptError.ardent m) => (some m, 1)
  | Except.error ScriptError.typeError => (none, 1)

/-- Trace contributed by one fetch step: nothing when the directory is
already present, otherwise the clone followed by its patches in order. -/
def cloneStep (w : World) (url targetDir : String) (patches : List String) : List Invocation :=
  if w.isdir (targetDir ++ sep ++ lastSegment url) then []
  else cloneInv url targetDir :: patches.map patchInv

/-- The full trace of fetch_libraries as a function of which dependency
directories already exist. -/
def fetchTrace (w : World) : List Invocation :=
  cloneStep w ("https://github.com/jackaudio/jack2") ("deps") []
    ++ cloneStep w ("https://github.com/aubio/aubio") ("deps") ["aubio_priv.h.patch"]
    ++ cloneStep w ("https://github.com/radarsat1/liblo") ("deps") []
    ++ cloneStep w ("https://github.com/x42/libltc") ("deps") []
    ++ cloneStep w ("https://github.com/swh/LRDF") ("deps") ["lrdf_types.h.patch"]
    ++ cloneStep w ("https://github.com/dajobe/raptor") ("deps") ["sort_r.h.patch"]
    ++ cloneStep w ("https://github.com/lv2/lv2kit") ("deps") ["win_in_gtk2.cpp.patch"]
    ++ cloneStep w ("git://git.ardour.org/ardour/ardour") ("deps")
        ["ardour-wscript.patch", "main.cc.patch", "pbd.cc.patch"]

/-- Trace of one meson wrapper call as a function of whether the build
subdirectory already exists. -/
def mesonTrace (w : World) (extra : List String) (cwd : String) : List Invocation :=
  (if w.isdir (cwd ++ sep ++ "build") then [] else [mesonSetupInv cwd])
    ++ [mesonConfigureInv extra (cwd ++ sep ++ "build"),
        mesonCompileInv (cwd ++ sep ++ "build"),
        mesonInstallInv (cwd ++ sep ++ "build")]

/-- The full trace of build_libraries (only the lv2kit meson part depends
on the world, through the existence of its build subdirectory). -/
def buildLibsTrace (w : World) : List Invocation :=
  [wafInv [] ("deps/jack2") ("waf") [] true true,
   autogenInv ("deps/liblo"), makeInstallInv ("deps/liblo"),
   autogenInv ("deps/libltc"), makeInstallInv ("deps/libltc"),
   autogenInv ("deps/raptor"), makeInstallInv ("deps/raptor"),
   autogenInv ("deps/LRDF"), makeInstallInv ("deps/LRDF")]
    ++ mesonTrace w ["-Dcxx=true"] ("deps/lv2kit")
    ++ [wafInv ["--disable-tests"] ("deps/aubio") ("../ardour/waf") [] true false]

/-- The invocation build_ardour spawns when PKG_CONFIG_PATH holds v. -/
def ardourInv (v : String) : Invocation :=
  wafInv ardourOptions ("deps/ardour") ("waf")
    [("PKG_CONFIG_PATH", v ++ pathsep ++ "C:\\mingw64\\lib\\pkgconfig")] true true

/-- Trace contributed by the conditional pacman install step. -/
def installStep (w : World) : List Invocation :=
  if toInstall w = [] then [] else [pacmanS (toInstall w)]

/-- Recognises a clone invocation by its command name. -/
def isCloneCmd (i : Invocation) : Bool := i.argv.head? = some ("git")

/-- Recognises a patch invocation by its command name. -/
def isPatchCmd (i : Invocation) : Bool := i.argv.head? = some ("patch")

/-- Recognises a package-install invocation by command name and mode flag. -/
def isInstallCmd (i : Invocation) : Bool := i.argv.take 2 = ["pacman", "-S"]

/-- Recognises a build-tool invocation by its command name: python3 (the
waf wrapper), sh and make (the autotools wrapper), or meson. -/
def isBuildCmd (i : Invocation) : Bool :=
  i.argv.head? = some ("python3") || i.argv.head? = some ("sh")
    || i.argv.head? = some ("make") || i.argv.head? = some ("meson")

/-- Builder for a pacman query output listing the given package names,
one per line, each line terminated by a newline. -/
def joinLines : List String → String
  | [] => ""
  | x :: xs => x ++ "\n" ++ joinLines xs

/-- A world for a complete second run: correct shell marker, PKG_CONFIG_PATH
set, every directory already present, every required package reported
installed by pacman, every spawned command succeeding. -/
def secondRunWorld : World where
  osenv := fun k =>
    if k = "MSYSTEM" then some ("MINGW64")
    else if k = "PKG_CONFIG_PATH" then some ("P") else none
  isdir := fun _ => true
  stdoutOf := fun _ => joinLines SYSTEM_DEPENDENCIES
  exitCode := fun _ => 0

/-- A world for a first run: correct shell marker, PKG_CONFIG_PATH set,
nothing present on disk, pacman reporting nothing installed, every spawned
command succeeding. -/
def freshWorld : World where
  osenv := fun k =>
    if k = "MSYSTEM" then some ("MINGW64")
    else if k = "PKG_CONFIG_PATH" then some ("P") else none
  isdir := fun _ => false
  stdoutOf := fun _ => ""
  exitCode := fun _ => 0

/-- A world whose pacman query exits with code 1 and everything else with 0. -/
def failingWorld : World where
  osenv := fun k => if k = "MSYSTEM" then some ("MINGW64") else none
  isdir := fun _ => false
  stdoutOf := fun _ => ""
  exitCode := fun inv => if inv = pacmanQq then 1 else 0

/-- A world running outside the expected shell (MSYSTEM unset). -/
def wrongShellWorld : World where
  osenv := fun _ => none
  isdir := fun _ => false
  stdoutOf := fun _ => ""
  exitCode := fun _ => 0

/-- A world that reaches the application build with PKG_CONFIG_PATH unset. -/
def noPkgConfigWorld : World where
  osenv := fun k => if k = "MSYSTEM" then some ("MINGW64") else none
  isdir := fun _ => true
  stdoutOf := fun _ => joinLines SYSTEM_DEPENDENCIES
  exitCode := fun _ => 0

/-- A world in which nothing is installed, used to exercise the install
invocation of the Package Installer. -/
def installWorld : World where
  osenv := fun k => if k = "MSYSTEM" then some ("MINGW64") else none
  isdir := fun _ => false
  stdoutOf := fun _ => ""
  exitCode := fun _ => 0

theorem M.bind_ok {α β : Type} {m : M α} {w : World} {a : α} {t : List Invocation}
    (f : α → M β) (h : m w = (Except.ok a, t)) :
    M.bind m f w = ((f a w).1, t ++ (f a w).2) := by
  unfold M.bind
  rw [h]

theorem M.bind_err {α β : Type} {m : M α} {w : World} {e : ScriptError} {t : List Invocation}
    (f : α → M β) (h : m w = (Except.error e, t)) :
    M.bind m f w = (Except.error e, t) := by
  unfold M.bind
  rw [h]

theorem run_ok (w : World) (inv : Invocation) (h : w.exitCode inv = 0) :
    run inv w = (Except.ok (w.stdoutOf inv), [inv]) := by
  simp [run, h]

theorem run_err (w : World) (inv : Invocation) (h : ¬ w.exitCode inv = 0) :
    run inv w
      = (Except.error (ScriptError.ardent (failMessage (w.exitCode inv) inv.argv)), [inv]) := by
  simp [run, h]

theorem clone_present (w : World) (url targetDir : String)
    (h : w.isdir (targetDir ++ sep ++ lastSegment url) = true) :
    clone url targetDir w = (Except.ok false, []) := by
  simp [clone, isdirM, M.bind, M.pure, h]

theorem clone_absent (w : World) (url targetDir : String)
    (h : w.isdir (targetDir ++ sep ++ lastSegment url) = false)
    (h0 : w.exitCode (cloneInv url targetDir) = 0) :
    clone url targetDir w = (Except.ok true, [cloneInv url targetDir]) := by
  simp [clone, isdirM, M.bind, M.pure, h, run_ok _ _ h0]

theorem clone_eval (w : World) (url targetDir : String)
    (h0 : w.exitCode (cloneInv url targetDir) = 0) :
    clone url targetDir w
      = (Except.ok (! w.isdir (targetDir ++ sep ++ lastSegment url)),
         cloneStep w url targetDir []) := by
  cases h : w.isdir (targetDir ++ sep ++ lastSegment url)
  · rw [clone_absent w url targetDir h h0]
    simp [cloneStep, h]
  · rw [clone_present w url targetDir h]
    simp [cloneStep, h]

theorem patch_ok (w : World) (name : String) (h : w.exitCode (patchInv name) = 0) :
    patch name w = (Except.ok (), [patchInv name]) := by
  simp [patch, M.bind, M.pure, run_ok _ _ h]

theorem waf_ok (w : World) (extra : List String) (cwd wafExe : String)
    (env : List (String × String)) (c cxx : Bool)
    (h : w.exitCode (wafInv extra cwd wafExe env c cxx) = 0) :
    waf extra cwd wafExe env c cxx w
      = (Except.ok (), [wafInv extra cwd wafExe env c cxx]) := by
  simp [waf, M.bind, M.pure, run_ok _ _ h]

theorem ac_ok (w : World) (cwd : String)
    (h1 : w.exitCode (autogenInv cwd) = 0) (h2 : w.exitCode (makeInstallInv cwd) = 0) :
    ac cwd w = (Except.ok (), [autogenInv cwd, makeInstallInv cwd]) := by
  simp [ac, M.bind, M.pure, run_ok _ _ h1, run_ok _ _ h2]

theorem meson_ok (w : World) (extra : List String) (cwd : String)
    (h0 : ∀ inv, w.exitCode inv = 0) :
    meson extra cwd w = (Except.ok (), mesonTrace w extra cwd) := by
  cases h : w.isdir (cwd ++ sep ++ "build") <;>
    simp [meson, mesonTrace, isdirM, M.bind, M.pure, h, run_ok _ _ (h0 _)]

theorem fetchGroup_one (w : World) (url p : String) (h0 : ∀ inv, w.exitCode inv = 0) :
    (M.bind (clone url ("deps")) (fun fresh => if fresh then patch p else M.pure ())) w
      = (Except.ok (), cloneStep w url ("deps") [p]) := by
  cases h : w.isdir ("deps" ++ sep ++ lastSegment url)
  · rw [M.bind_ok _ (clone_absent w url ("deps") h (h0 _))]
    simp [patch_ok _ _ (h0 _), cloneStep, h]
  · rw [M.bind_ok _ (clone_present w url ("deps") h)]
    simp [cloneStep, h, M.pure]

theorem fetchGroup_three (w : World) (url p1 p2 p3 : String) (h0 : ∀ inv, w.exitCode inv = 0) :
    (M.bind (clone url ("deps")) (fun fresh =>
      if fresh then
        M.bind (patch p1) (fun _ => M.bind (patch p2) (fun _ => patch p3))
      else M.pure ())) w
      = (Except.ok (), cloneStep w url ("deps") [p1, p2, p3]) := by
  cases h : w.isdir ("deps" ++ sep ++ lastSegment url)
  · rw [M.bind_ok _ (clone_absent w url ("deps") h (h0 _))]
    simp [M.bind, patch_ok _ _ (h0 _), cloneStep, h]
  · rw [M.bind_ok _ (clone_present w url ("deps") h)]
    simp [cloneStep, h, M.pure]

theorem fetch_eval (w : World) (h0 : ∀ inv, w.exitCode inv = 0) :
    fetch_libraries w = (Except.ok (), fetchTrace w) := by
  have hclone : ∀ url, clone url ("deps") w
      = (Except.ok (! w.isdir ("deps" ++ sep ++ lastSegment url)), cloneStep w url ("deps") []) :=
    fun url => clone_eval w url ("deps") (h0 _)
  have hone : ∀ url p, (M.bind (clone url ("deps"))
        (fun fresh => if fresh then patch p else M.pure ())) w
      = (Except.ok (), cloneStep w url ("deps") [p]) :=
    fun url p => fetchGroup_one w url p h0
  have hthree : ∀ url p1 p2 p3, (M.bind (clone url ("deps")) (fun fresh =>
        if fresh then
          M.bind (patch p1) (fun _ => M.bind (patch p2) (fun _ => patch p3))
        else M.pure ())) w
      = (Except.ok (), cloneStep w url ("deps") [p1, p2, p3]) :=
    fun url p1 p2 p3 => fetchGroup_three w url p1 p2 p3 h0
  show M.bind _ _ w = _
  rw [M.bind_ok _ (hclone _)]
  try simp only []
  rw [M.bind_ok _ (hone _ _)]
  try simp only []
  rw [M.bind_ok _ (hclone _)]
  try simp only []
  rw [M.bind_ok _ (hclone _)]
  try simp only []
  rw [M.bind_ok _ (hone _ _)]
  try simp only []
  rw [M.bind_ok _ (hone _ _)]
  try simp only []
  rw [M.bind_ok _ (hone _ _)]
  try simp only []
  rw [hthree]
  simp [fetchTrace, List.append_assoc]

theorem check_shell_pass (w : World) (h : w.osenv ("MSYSTEM") = some ("MINGW64")) :
    check_shell w = (Except.ok (), []) := by
  simp [check_shell, getenvM, M.bind, M.pure, h]

theorem check_shell_fail (w : World) (h : ¬ w.osenv ("MSYSTEM") = some ("MINGW64")) :
    check_shell w = (Except.error (ScriptError.ardent shellErrorMessage), []) := by
  simp [check_shell, getenvM, M.bind, M.fail, h]

theorem install_eval (w : World) (h0 : ∀ inv, w.exitCode inv = 0) :
    install_package_deps w = (Except.ok (), pacmanQq :: installStep w) := by
  rw [install_package_deps, M.bind_ok _ (run_ok w pacmanQq (h0 _))]
  by_cases h : toInstall w = [] <;>
    simp [installStep, h, M.pure, M.bind, run_ok _ _ (h0 _)]

theorem build_libraries_eval (w : World) (h0 : ∀ inv, w.exitCode inv = 0) :
    build_libraries w = (Except.ok (), buildLibsTrace w) := by
  have hwaf : ∀ extra cwd wafExe env c cxx, waf extra cwd wafExe env c cxx w
      = (Except.ok (), [wafInv extra cwd wafExe env c cxx]) :=
    fun extra cwd wafExe env c cxx => waf_ok w extra cwd wafExe env c cxx (h0 _)
  have hac : ∀ cwd, ac cwd w = (Except.ok (), [autogenInv cwd, makeInstallInv cwd]) :=
    fun cwd => ac_ok w cwd (h0 _) (h0 _)
  have hmeson : ∀ extra cwd, meson extra cwd w = (Except.ok (), mesonTrace w extra cwd) :=
    fun extra cwd => meson_ok w extra cwd h0
  simp [build_libraries, M.bind, hwaf, hac, hmeson, buildLibsTrace]

theorem build_ardour_ok (w : World) (v : String)
    (hp : w.osenv ("PKG_CONFIG_PATH") = some v) (h0 : ∀ inv, w.exitCode inv = 0) :
    build_ardour w = (Except.ok (), [ardourInv v]) := by
  have hwaf : ∀ extra cwd wafExe env c cxx, waf extra cwd wafExe env c cxx w
      = (Except.ok (), [wafInv extra cwd wafExe env c cxx]) :=
    fun extra cwd wafExe env c cxx => waf_ok w extra cwd wafExe env c cxx (h0 _)
  simp [build_ardour, getenvM, M.bind, hp, hwaf, ardourInv]

theorem build_ardour_unset (w : World) (hp : w.osenv ("PKG_CONFIG_PATH") = none) :
    build_ardour w = (Except.error ScriptError.typeError, []) := by
  simp [build_ardour, getenvM, M.bind, M.fail, hp]

theorem mainScript_eval (w : World) (v : String) (h0 : ∀ inv, w.exitCode inv = 0)
    (hm : w.osenv ("MSYSTEM") = some ("MINGW64"))
    (hp : w.osenv ("PKG_CONFIG_PATH") = some v) :
    mainScript w
      = (Except.ok (),
         (pacmanQq :: installStep w) ++ fetchTrace w ++ buildLibsTrace w ++ [ardourInv v]) := by
  have hcs := check_shell_pass w hm
  have hi := install_eval w h0
  have hf := fetch_eval w h0
  have hb := build_libraries_eval w h0
  have ha := build_ardour_ok w v hp h0
  simp [mainScript, M.bind, hcs, hi, hf, hb, ha]

/-- A computation is runner-faithful when any executed command with a
non-zero exit code makes the whole computation fail with exactly the
ArdentError that the run helper raised for that command.  This is the
formal shape of the propagation policy: no component catches the error. -/
def RunnerFaithful {α : Type} (m : M α) : Prop :=
  ∀ w inv, inv ∈ (m w).2 → ¬ w.exitCode inv = 0 →
    (m w).1 = Except.error (ScriptError.ardent (failMessage (w.exitCode inv) inv.argv))

theorem runnerFaithful_pure {α : Type} (a : α) : RunnerFaithful (M.pure a) := by
  intro w inv hmem _
  simp [M.pure] at hmem

theorem runnerFaithful_fail {α : Type} (e : ScriptError) :
    RunnerFaithful (M.fail e : M α) := by
  intro w inv hmem _
  simp [M.fail] at hmem

theorem runnerFaithful_getenv (k : String) : RunnerFaithful (getenvM k) := by
  intro w inv hmem _
  simp [getenvM] at hmem

theorem runnerFaithful_isdir (p : String) : RunnerFaithful (isdirM p) := by
  intro w inv hmem _
  simp [isdirM] at hmem

theorem runnerFaithful_run (i : Invocation) : RunnerFaithful (run i) := by
  intro w inv hmem hne
  by_cases h : w.exitCode i = 0
  · rw [run_ok w i h] at hmem ⊢
    simp only [List.mem_singleton] at hmem
    subst hmem
    exact absurd h hne
  · rw [run_err w i h] at hmem ⊢
    simp only [List.mem_singleton] at hmem
    subst hmem
    rfl

theorem runnerFaithful_bind {α β : Type} {m : M α} {f : α → M β}
    (hm : RunnerFaithful m) (hf : ∀ a, RunnerFaithful (f a)) :
    RunnerFaithful (M.bind m f) := by
  intro w inv hmem hne
  unfold M.bind at hmem ⊢
  rcases hres : m w with ⟨r, t⟩
  rw [hres] at hmem
  cases r with
  | ok a =>
    have hmem2 : inv ∈ t ++ (f a w).2 := hmem
    rcases List.mem_append.mp hmem2 with h1 | h2
    · have hc := hm w inv (by rw [hres]; exact h1) hne
      rw [hres] at hc
      exact absurd hc (by simp)
    · show (f a w).1 = _
      exact hf a w inv h2 hne
  | error e =>
    have hmem2 : inv ∈ t := hmem
    have hc := hm w inv (by rw [hres]; exact hmem2) hne
    rw [hres] at hc
    have he : e = ScriptError.ardent (failMessage (w.exitCode inv) inv.argv) := by
      simpa using hc
    show (Except.error e : Except ScriptError β) = _
    rw [he]

theorem runnerFaithful_ite {α : Type} {c : Prop} [Decidable c] {m₁ m₂ : M α}
    (h₁ : RunnerFaithful m₁) (h₂ : RunnerFaithful m₂) :
    RunnerFaithful (if c then m₁ else m₂) := by
  by_cases h : c <;> simp [h, h₁, h₂]

theorem runnerFaithful_clone (url targetDir : String) :
    RunnerFaithful (clone url targetDir) := by
  unfold clone
  exact runnerFaithful_bind (runnerFaithful_isdir _) (fun b =>
    runnerFaithful_ite (runnerFaithful_pure _)
      (runnerFaithful_bind (runnerFaithful_run _) (fun _ => runnerFaithful_pure _)))

theorem runnerFaithful_patch (p : String) : RunnerFaithful (patch p) := by
  unfold patch
  exact runnerFaithful_bind (runnerFaithful_run _) (fun _ => runnerFaithful_pure _)

theorem runnerFaithful_waf (extra : List String) (cwd wafExe : String)
    (env : List (String × String)) (c cxx : Bool) :
    RunnerFaithful (waf extra cwd wafExe env c cxx) := by
  unfold waf
  exact runnerFaithful_bind (runnerFaithful_run _) (fun _ => runnerFaithful_pure _)

theorem runnerFaithful_ac (cwd : String) : RunnerFaithful (ac cwd) := by
  unfold ac
  exact runnerFaithful_bind (runnerFaithful_run _) (fun _ =>
    runnerFaithful_bind (runnerFaithful_run _) (fun _ => runnerFaithful_pure _))

theorem runnerFaithful_meson (extra : List String) (cwd : String) :
    RunnerFaithful (meson extra cwd) := by
  unfold meson
  exact runnerFaithful_bind (runnerFaithful_isdir _) (fun b =>
    runnerFaithful_bind
      (runnerFaithful_ite (runnerFaithful_pure _)
        (runnerFaithful_bind (runnerFaithful_run _) (fun _ => runnerFaithful_pure _)))
      (fun _ => runnerFaithful_bind (runnerFaithful_run _) (fun _ =>
        runnerFaithful_bind (runnerFaithful_run _) (fun _ =>
          runnerFaithful_bind (runnerFaithful_run _) (fun _ => runnerFaithful_pure _)))))

theorem runnerFaithful_check_shell : RunnerFaithful check_shell := by
  unfold check_shell
  exact runnerFaithful_bind (runnerFaithful_getenv _) (fun v =>
    runnerFaithful_ite (runnerFaithful_pure _) (runnerFaithful_fail _))

theorem runnerFaithful_install : RunnerFaithful install_package_deps := by
  unfold install_package_deps
  refine runnerFaithful_bind (runnerFaithful_run _) (fun _ => ?_)
  intro w inv hmem hne
  have hmem2 : inv ∈ ((if toInstall w = [] then M.pure () else
      M.bind (run (pacmanS (toInstall w))) (fun _ => M.pure ())) w).2 := hmem
  show ((if toInstall w = [] then M.pure () else
      M.bind (run (pacmanS (toInstall w))) (fun _ => M.pure ())) w).1 = _
  by_cases h : toInstall w = []
  · rw [if_pos h] at hmem2
    simp [M.pure] at hmem2
  · rw [if_neg h] at hmem2 ⊢
    exact runnerFaithful_bind (runnerFaithful_run _) (fun _ => runnerFaithful_pure _)
      w inv hmem2 hne

theorem runnerFaithful_fetch : RunnerFaithful fetch_libraries := by
  unfold fetch_libraries
  refine runnerFaithful_bind (runnerFaithful_clone _ _) (fun _ => ?_)
  refine runnerFaithful_bind (runnerFaithful_bind (runnerFaithful_clone _ _) (fun fresh =>
    runnerFaithful_ite (runnerFaithful_patch _) (runnerFaithful_pure _))) (fun _ => ?_)
  refine runnerFaithful_bind (runnerFaithful_clone _ _) (fun _ => ?_)
  refine runnerFaithful_bind (runnerFaithful_clone _ _) (fun _ => ?_)
  refine runnerFaithful_bind (runnerFaithful_bind (runnerFaithful_clone _ _) (fun fresh =>
    runnerFaithful_ite (runnerFaithful_patch _) (runnerFaithful_pure _))) (fun _ => ?_)
  refine runnerFaithful_bind (runnerFaithful_bind (runnerFaithful_clone _ _) (fun fresh =>
    runnerFaithful_ite (runnerFaithful_patch _) (runnerFaithful_pure _))) (fun _ => ?_)
  refine runnerFaithful_bind (runnerFaithful_bind (runnerFaithful_clone _ _) (fun fresh =>
    runnerFaithful_ite (runnerFaithful_patch _) (runnerFaithful_pure _))) (fun _ => ?_)
  exact runnerFaithful_bind (runnerFaithful_clone _ _) (fun fresh =>
    runnerFaithful_ite
      (runnerFaithful_bind (runnerFaithful_patch _) (fun _ =>
        runnerFaithful_bind (runnerFaithful_patch _) (fun _ => runnerFaithful_patch _)))
      (runnerFaithful_pure _))

theorem runnerFaithful_build_libraries : RunnerFaithful build_libraries := by
  unfold build_libraries
  refine runnerFaithful_bind (runnerFaithful_waf _ _ _ _ _ _) (fun _ => ?_)
  refine runnerFaithful_bind (runnerFaithful_ac _) (fun _ => ?_)
  refine runnerFaithful_bind (runnerFaithful_ac _) (fun _ => ?_)
  refine runnerFaithful_bind (runnerFaithful_ac _) (fun _ => ?_)
  refine runnerFaithful_bind (runnerFaithful_ac _) (fun _ => ?_)
  exact runnerFaithful_bind (runnerFaithful_meson _ _) (fun _ =>
    runnerFaithful_waf _ _ _ _ _ _)

theorem runnerFaithful_build_ardour : RunnerFaithful build_ardour := by
  unfold build_ardour
  refine runnerFaithful_bind (runnerFaithful_getenv _) (fun p => ?_)
  cases p with
  | none => exact runnerFaithful_fail _
  | some v => exact runnerFaithful_waf _ _ _ _ _ _

theorem runnerFaithful_mainScript : RunnerFaithful mainScript := by
  unfold mainScript
  refine runnerFaithful_bind runnerFaithful_check_shell (fun _ => ?_)
  refine runnerFaithful_bind runnerFaithful_install (fun _ => ?_)
  refine runnerFaithful_bind runnerFaithful_fetch (fun _ => ?_)
  exact runnerFaithful_bind runnerFaithful_build_libraries (fun _ =>
    runnerFaithful_build_ardour)

/-- C2: whenever the MSYSTEM environment variable does not equal MINGW64,
the script raises exactly the single environment ArdentError before
spawning any external command (the trace is empty, so no side effect has
occurred), and the top level prints that one error and exits non-zero. -/
theorem shell_guard_aborts_without_side_effects (w : World)
    (h : ¬ w.osenv ("MSYSTEM") = some ("MINGW64")) :
    mainScript w = (Except.error (ScriptError.ardent shellErrorMessage), []) ∧
    topLevel w = (some shellErrorMessage, 1) := by
  have hmain : mainScript w = (Except.error (ScriptError.ardent shellErrorMessage), []) := by
    unfold mainScript
    exact M.bind_err _ (check_shell_fail w h)
  exact ⟨hmain, by simp [topLevel, hmain]⟩

/-- Witness for C2: in a world with MSYSTEM unset, the run errors with
the shell message, the trace is empty, and the process exits 1. -/
theorem shell_guard_aborts_without_side_effects_witness :
    mainScript wrongShellWorld
        = (Except.error (ScriptError.ardent shellErrorMessage), []) ∧
    topLevel wrongShellWorld = (some shellErrorMessage, 1) :=
  shell_guard_aborts_without_side_effects wrongShellWorld (by simp [wrongShellWorld])

/-- C7: every meson wrapper invocation runs the setup step exactly when the
build subdirectory of the working directory does not already exist, and in
either case then runs configure extended with the caller options, then
compile, then install, each in the build subdirectory. -/
theorem meson_wrapper_setup_iff_absent (w : World) (extra : List String) (cwd : String)
    (h0 : ∀ inv, w.exitCode inv = 0) :
    meson extra cwd w
      = (Except.ok (),
         (if w.isdir (cwd ++ sep ++ "build") then [] else [mesonSetupInv cwd])
           ++ [mesonConfigureInv extra (cwd ++ sep ++ "build"),
               mesonCompileInv (cwd ++ sep ++ "build"),
               mesonInstallInv (cwd ++ sep ++ "build")]) := by
  rw [meson_ok w extra cwd h0]
  rfl

/-- Witness for C7: with no build directory present, the wrapper runs
setup, configure, compile and install in order. -/
theorem meson_wrapper_setup_iff_absent_witness :
    meson ["-Dcxx=true"] ("deps/lv2kit") freshWorld
      = (Except.ok (),
         (if freshWorld.isdir ("deps/lv2kit" ++ sep ++ "build") then []
          else [mesonSetupInv ("deps/lv2kit")])
           ++ [mesonConfigureInv ["-Dcxx=true"] ("deps/lv2kit" ++ sep ++ "build"),
               mesonCompileInv ("deps/lv2kit" ++ sep ++ "build"),
               mesonInstallInv ("deps/lv2kit" ++ sep ++ "build")]) :=
  meson_wrapper_setup_iff_absent freshWorld ["-Dcxx=true"] ("deps/lv2kit") (fun _ => rfl)

/-- C8: every waf wrapper invocation spawns one command whose argv is the
interpreter and script followed by the fixed subcommands configure, build,
install with the fixed installation prefix, then the C compiler-check flag
exactly when requested, then the C++ compiler-check flag exactly when
requested, then the caller extras; it runs in the given working directory,
and its environment is the current process environment merged with the
caller overrides, the overrides winning. -/
theorem waf_wrapper_argv_and_env (w : World) (extra : List String) (cwd wafExe : String)
    (env : List (String × String)) (c cxx : Bool) (k : String)
    (h0 : w.exitCode (wafInv extra cwd wafExe env c cxx) = 0) :
    waf extra cwd wafExe env c cxx w
        = (Except.ok (), [wafInv extra cwd wafExe env c cxx]) ∧
    (wafInv extra cwd wafExe env c cxx).argv
      = ["python3", wafExe, "configure", "build", "install", "--prefix=/mingw64"]
          ++ (if c then ["--check-c-compiler=gcc"] else [])
          ++ (if cxx then ["--check-cxx-compiler=g++"] else []) ++ extra ∧
    (wafInv extra cwd wafExe env c cxx).cwd = some cwd ∧
    subprocessEnv w (wafInv extra cwd wafExe env c cxx) k
      = (match env.lookup k with
         | some v => some v
         | none => w.osenv k) :=
  ⟨waf_ok w extra cwd wafExe env c cxx h0, rfl, rfl, rfl⟩

/-- Witness for C8: a concrete waf call with one extra option and one
environment override, probed at the overridden key. -/
theorem waf_wrapper_argv_and_env_witness :
    waf ["--opt"] ("d") ("waf") [("A", "1")] true false freshWorld
        = (Except.ok (), [wafInv ["--opt"] ("d") ("waf") [("A", "1")] true false]) ∧
    (wafInv ["--opt"] ("d") ("waf") [("A", "1")] true false).argv
      = ["python3", "waf", "configure", "build", "install", "--prefix=/mingw64"]
          ++ (if true then ["--check-c-compiler=gcc"] else [])
          ++ (if false then ["--check-cxx-compiler=g++"] else []) ++ ["--opt"] ∧
    (wafInv ["--opt"] ("d") ("waf") [("A", "1")] true false).cwd = some ("d") ∧
    subprocessEnv freshWorld (wafInv ["--opt"] ("d") ("waf") [("A", "1")] true false) ("A")
      = (match ([("A", "1")].lookup ("A") : Option String) with
         | some v => some v
         | none => freshWorld.osenv ("A")) :=
  waf_wrapper_argv_and_env freshWorld ["--opt"] ("d") ("waf") [("A", "1")] true false ("A") rfl

/-- C9: if PKG_CONFIG_PATH is unset when the application build is reached,
build_ardour fails with the TypeError (None concatenated with a string)
before spawning any command; that error is not the structured ArdentError,
so a run that ends in it bypasses the structured reporting path of the top
level (nothing is printed through it, though the process still dies). -/
theorem app_builder_requires_pkg_config_path (w : World)
    (h : w.osenv ("PKG_CONFIG_PATH") = none) :
    build_ardour w = (Except.error ScriptError.typeError, []) ∧
    ((mainScript w).1 = Except.error ScriptError.typeError → topLevel w = (none, 1)) ∧
    (∀ m, ¬ ScriptError.typeError = ScriptError.ardent m) := by
  refine ⟨build_ardour_unset w h, fun hm => by simp [topLevel, hm], fun m hc => ?_⟩
  cases hc

/-- Witness for C9: a world whose environment lacks PKG_CONFIG_PATH. -/
theorem app_builder_requires_pkg_config_path_witness :
    build_ardour noPkgConfigWorld = (Except.error ScriptError.typeError, []) ∧
    ((mainScript noPkgConfigWorld).1 = Except.error ScriptError.typeError →
        topLevel noPkgConfigWorld = (none, 1)) ∧
    (∀ m, ¬ ScriptError.typeError = ScriptError.ardent m) :=
  app_builder_requires_pkg_config_path noPkgConfigWorld rfl

theorem install_trace_shape (w : World) (hqq : w.exitCode pacmanQq = 0) :
    (install_package_deps w).2
      = [pacmanQq] ++ (if toInstall w = [] then [] else [pacmanS (toInstall w)]) := by
  rw [install_package_deps, M.bind_ok _ (run_ok w pacmanQq hqq)]
  by_cases h : toInstall w = []
  · simp [h, M.pure]
  · by_cases hS : w.exitCode (pacmanS (toInstall w)) = 0
    · simp [h, M.bind, M.pure, run_ok _ _ hS]
    · simp [h, M.bind, M.pure, run_err _ _ hS]

theorem empty_not_required : ¬ ("" : String) ∈ SYSTEM_DEPENDENCIES := by decide

/-- C5: the Package Installer computes exactly the set difference between
the required package set and the installed set parsed from the pacman
query output (one name per line); a package in the installed set is never
in the computed difference, and when the difference is empty the trace
holds the query alone, with no install invocation. -/
theorem installer_computes_set_difference (w : World) (x : String)
    (hqq : w.exitCode pacmanQq = 0) :
    (x ∈ toInstall w ↔ x ∈ SYSTEM_DEPENDENCIES ∧ ¬ x ∈ installedPackages w) ∧
    (x ∈ toInstall w → ¬ x ∈ installedPackages w) ∧
    (toInstall w = [] → (install_package_deps w).2 = [pacmanQq]) ∧
    (¬ toInstall w = [] →
        (install_package_deps w).2 = [pacmanQq, pacmanS (toInstall w)]) := by
  have hmem : x ∈ toInstall w ↔ x ∈ SYSTEM_DEPENDENCIES ∧ ¬ x ∈ installedPackages w := by
    unfold toInstall
    simp [List.mem_filter]
  refine ⟨hmem, fun hx => (hmem.mp hx).2, fun h => ?_, fun h => ?_⟩
  · rw [install_trace_shape w hqq, if_pos h]
    rfl
  · rw [install_trace_shape w hqq, if_neg h]
    rfl

/-- Witness for C5: in a world where pacman reports nothing installed, the
first required package is in the computed difference, is not in the
installed set, and the install invocation is spawned after the query. -/
theorem installer_computes_set_difference_witness :
    (("mingw-w64-x86_64-atk" : String) ∈ toInstall installWorld ↔
        ("mingw-w64-x86_64-atk" : String) ∈ SYSTEM_DEPENDENCIES ∧
          ¬ ("mingw-w64-x86_64-atk" : String) ∈ installedPackages installWorld) ∧
    (("mingw-w64-x86_64-atk" : String) ∈ toInstall installWorld →
        ¬ ("mingw-w64-x86_64-atk" : String) ∈ installedPackages installWorld) ∧
    (toInstall installWorld = [] →
        (install_package_deps installWorld).2 = [pacmanQq]) ∧
    (¬ toInstall installWorld = [] →
        (install_package_deps installWorld).2
          = [pacmanQq, pacmanS (toInstall installWorld)]) :=
  installer_computes_set_difference installWorld ("mingw-w64-x86_64-atk") rfl

/-- C10: any install-mode pacman invocation spawned by the Package
Installer carries a non-empty package list that is a subset of the fixed
required set; in particular the empty string produced by splitting the
query output on newlines never reaches the install invocation. -/
theorem install_invocation_nonempty_subset (w : World) (inv : Invocation)
    (hmem : inv ∈ (install_package_deps w).2)
    (hargv : inv.argv.take 4 = ["pacman", "-S", "--noconfirm", "--needed"]) :
    ¬ inv.argv.drop 4 = [] ∧
    (∀ x ∈ inv.argv.drop 4, x ∈ SYSTEM_DEPENDENCIES) ∧
    ¬ ("" : String) ∈ inv.argv.drop 4 := by
  have hqqargv : ¬ pacmanQq.argv.take 4 = ["pacman", "-S", "--noconfirm", "--needed"] := by
    decide
  by_cases hqq : w.exitCode pacmanQq = 0
  · rw [install_trace_shape w hqq] at hmem
    by_cases h : toInstall w = []
    · rw [if_pos h] at hmem
      simp only [List.append_nil, List.mem_singleton] at hmem
      subst hmem
      exact absurd hargv hqqargv
    · rw [if_neg h] at hmem
      simp only [List.singleton_append, List.mem_cons, List.not_mem_nil, or_false] at hmem
      rcases hmem with hmem | hmem
      · subst hmem
        exact absurd hargv hqqargv
      · subst hmem
        have hdrop : (pacmanS (toInstall w)).argv.drop 4 = toInstall w := by
          show ((["pacman", "-S", "--noconfirm", "--needed"] : List String)
              ++ toInstall w).drop 4 = toInstall w
          exact List.drop_left (["pacman", "-S", "--noconfirm", "--needed"]) (toInstall w)
        rw [hdrop]
        refine ⟨h, fun x hx => (List.mem_filter.mp hx).1, fun hx => ?_⟩
        exact empty_not_required (List.mem_filter.mp hx).1
  · rw [install_package_deps, M.bind_err _ (run_err w pacmanQq hqq)] at hmem
    simp only [List.mem_singleton] at hmem
    subst hmem
    exact absurd hargv hqqargv

/-- Witness for C10: with nothing installed, the spawned install invocation
holds the whole required set: non-empty, a subset, and free of the empty
string. -/
theorem install_invocation_nonempty_subset_witness :
    ¬ (pacmanS (toInstall installWorld)).argv.drop 4 = [] ∧
    (∀ x ∈ (pacmanS (toInstall installWorld)).argv.drop 4, x ∈ SYSTEM_DEPENDENCIES) ∧
    ¬ ("" : String) ∈ (pacmanS (toInstall installWorld)).argv.drop 4 :=
  install_invocation_nonempty_subset installWorld (pacmanS (toInstall installWorld))
    (by decide) (by decide)

/-- C4: a dependency whose directory (named after the last URL path
segment) already exists under the target directory is neither cloned nor
patched and the fetcher signals false; an absent one is cloned exactly
once with the fetcher signalling true; and the whole fetch trace is, per
dependency in the fixed list, nothing when present, else the clone
followed immediately by its patches in the documented order (one patch for
aubio, LRDF, raptor and lv2kit, three for ardour, none for the others). -/
theorem fetcher_clone_and_patch_behaviour (w : World)
    (h0 : ∀ inv, w.exitCode inv = 0) :
    (∀ url targetDir, w.isdir (targetDir ++ sep ++ lastSegment url) = true →
        clone url targetDir w = (Except.ok false, [])) ∧
    (∀ url targetDir, w.isdir (targetDir ++ sep ++ lastSegment url) = false →
        clone url targetDir w = (Except.ok true, [cloneInv url targetDir])) ∧
    fetch_libraries w
      = (Except.ok (),
         cloneStep w ("https://github.com/jackaudio/jack2") ("deps") []
           ++ cloneStep w ("https://github.com/aubio/aubio") ("deps") ["aubio_priv.h.patch"]
           ++ cloneStep w ("https://github.com/radarsat1/liblo") ("deps") []
           ++ cloneStep w ("https://github.com/x42/libltc") ("deps") []
           ++ cloneStep w ("https://github.com/swh/LRDF") ("deps") ["lrdf_types.h.patch"]
           ++ cloneStep w ("https://github.com/dajobe/raptor") ("deps") ["sort_r.h.patch"]
           ++ cloneStep w ("https://github.com/lv2/lv2kit") ("deps") ["win_in_gtk2.cpp.patch"]
           ++ cloneStep w ("git://git.ardour.org/ardour/ardour") ("deps")
               ["ardour-wscript.patch", "main.cc.patch", "pbd.cc.patch"]) :=
  ⟨fun url targetDir h => clone_present w url targetDir h,
   fun url targetDir h => clone_absent w url targetDir h (h0 _),
   fetch_eval w h0⟩

/-- Witness for C4: in a world with no directory present, every clone
happens and every patch follows its clone. -/
theorem fetcher_clone_and_patch_behaviour_witness :
    (∀ url targetDir,
        freshWorld.isdir (targetDir ++ sep ++ lastSegment url) = true →
        clone url targetDir freshWorld = (Except.ok false, [])) ∧
    (∀ url targetDir,
        freshWorld.isdir (targetDir ++ sep ++ lastSegment url) = false →
        clone url targetDir freshWorld = (Except.ok true, [cloneInv url targetDir])) ∧
    fetch_libraries freshWorld
      = (Except.ok (),
         cloneStep freshWorld ("https://github.com/jackaudio/jack2") ("deps") []
           ++ cloneStep freshWorld ("https://github.com/aubio/aubio") ("deps")
               ["aubio_priv.h.patch"]
           ++ cloneStep freshWorld ("https://github.com/radarsat1/liblo") ("deps") []
           ++ cloneStep freshWorld ("https://github.com/x42/libltc") ("deps") []
           ++ cloneStep freshWorld ("https://github.com/swh/LRDF") ("deps")
               ["lrdf_types.h.patch"]
           ++ cloneStep freshWorld ("https://github.com/dajobe/raptor") ("deps")
               ["sort_r.h.patch"]
           ++ cloneStep freshWorld ("https://github.com/lv2/lv2kit") ("deps")
               ["win_in_gtk2.cpp.patch"]
           ++ cloneStep freshWorld ("git://git.ardour.org/ardour/ardour") ("deps")
               ["ardour-wscript.patch", "main.cc.patch", "pbd.cc.patch"]) :=
  fetcher_clone_and_patch_behaviour freshWorld (fun _ => rfl)

/-- C3: whenever a command executed during the run has a non-zero exit
status, the run helper raises the single ArdentError whose message embeds
that exact exit code and the space-joined command line; the error
propagates uncaught, so the whole script ends in exactly that error, the
top level prints its message and the process exits non-zero. -/
theorem runner_failure_terminates_run (w : World) (inv : Invocation)
    (hmem : inv ∈ (mainScript w).2) (hexit : ¬ w.exitCode inv = 0) :
    (run inv w).1
        = Except.error (ScriptError.ardent (failMessage (w.exitCode inv) inv.argv)) ∧
    failMessage (w.exitCode inv) inv.argv
      = "\nFailed to run subprocess (exit code " ++ toString (w.exitCode inv) ++ "):\n"
          ++ String.intercalate (" ") inv.argv ∧
    (mainScript w).1
        = Except.error (ScriptError.ardent (failMessage (w.exitCode inv) inv.argv)) ∧
    topLevel w = (some (failMessage (w.exitCode inv) inv.argv), 1) := by
  have hmain := runnerFaithful_mainScript w inv hmem hexit
  refine ⟨by rw [run_err w inv hexit], rfl, hmain, ?_⟩
  simp [topLevel, hmain]

/-- Witness for C3: in a world where the pacman query exits 1, the query is
in the trace, the run ends in the ArdentError embedding exit code 1 and
the command line, and the process exits 1 after printing it. -/
theorem runner_failure_terminates_run_witness :
    (run pacmanQq failingWorld).1
        = Except.error (ScriptError.ardent
            (failMessage (failingWorld.exitCode pacmanQq) pacmanQq.argv)) ∧
    failMessage (failingWorld.exitCode pacmanQq) pacmanQq.argv
      = "\nFailed to run subprocess (exit code "
          ++ toString (failingWorld.exitCode pacmanQq) ++ "):\n"
          ++ String.intercalate (" ") pacmanQq.argv ∧
    (mainScript failingWorld).1
        = Except.error (ScriptError.ardent
            (failMessage (failingWorld.exitCode pacmanQq) pacmanQq.argv)) ∧
    topLevel failingWorld
      = (some (failMessage (failingWorld.exitCode pacmanQq) pacmanQq.argv), 1) :=
  runner_failure_terminates_run failingWorld pacmanQq (by decide) (by decide)

theorem pySplit_ne_nil (c : Char) (s : List Char) : ¬ pySplit c s = [] := by
  cases s with
  | nil => simp [pySplit]
  | cons x xs =>
    unfold pySplit
    cases hr : pySplit c xs with
    | nil => simp
    | cons y ys => by_cases hx : x = c <;> simp [hx]

theorem pySplit_append (c : Char) (xs ys : List Char) (h : ¬ c ∈ xs) :
    pySplit c (xs ++ c :: ys) = xs :: pySplit c ys := by
  induction xs with
  | nil =>
    show pySplit c (c :: ys) = [] :: pySplit c ys
    conv_lhs => rw [pySplit]
    cases hr : pySplit c ys with
    | nil => exact absurd hr (pySplit_ne_nil c ys)
    | cons y ys2 => simp
  | cons x xs ih =>
    have hx : ¬ x = c := fun he => h (by rw [he]; exact List.mem_cons_self _ _)
    have hxs : ¬ c ∈ xs := fun hc => h (List.mem_cons_of_mem _ hc)
    show pySplit c (x :: (xs ++ c :: ys)) = (x :: xs) :: pySplit c ys
    conv_lhs => rw [pySplit]
    rw [ih hxs]
    simp [hx]

theorem pySplitOn_joinLines (l : List String) (h : ∀ x ∈ l, ¬ ('\n') ∈ x.data) :
    pySplitOn ('\n') (joinLines l) = l ++ [""] := by
  unfold pySplitOn
  have hdata : ∀ (m : List String), (∀ x ∈ m, ¬ ('\n') ∈ x.data) →
      pySplit ('\n') (joinLines m).data = m.map String.data ++ [[]] := by
    intro m
    induction m with
    | nil => intro _; rfl
    | cons x xs ih =>
      intro hm
      have hd : (joinLines (x :: xs)).data = x.data ++ ('\n') :: (joinLines xs).data := by
        show (x ++ "\n" ++ joinLines xs).data = _
        simp [String.data_append]
      rw [hd, pySplit_append ('\n') x.data (joinLines xs).data
          (hm x (List.mem_cons_self _ _)),
        ih (fun y hy => hm y (List.mem_cons_of_mem _ hy))]
      rfl
  rw [hdata l h, List.map_append, List.map_map]
  have hid : (String.mk ∘ String.data) = id := funext fun s => rfl
  rw [hid, List.map_id]
  rfl

theorem toInstall_nil_of_all_installed (w : World)
    (hpkgs : ∀ x ∈ SYSTEM_DEPENDENCIES, x ∈ installedPackages w) :
    toInstall w = [] := by
  unfold toInstall
  rw [List.filter_eq_nil_iff]
  intro a ha
  simp [hpkgs a ha]

/-- C1: on a second run (correct shell marker, PKG_CONFIG_PATH set, every
dependency directory and the meson build output directory already present,
every required package already installed, every command succeeding) the
script spawns no clone, no patch and no package install, yet still spawns
every build-tool invocation: the whole trace is the pacman query followed
by exactly the fifteen build commands. -/
theorem second_run_spawns_builds_only (w : World) (v : String)
    (h0 : ∀ inv, w.exitCode inv = 0)
    (hm : w.osenv ("MSYSTEM") = some ("MINGW64"))
    (hp : w.osenv ("PKG_CONFIG_PATH") = some v)
    (hdirs : ∀ d ∈ (["deps/jack2", "deps/aubio", "deps/liblo", "deps/libltc",
        "deps/LRDF", "deps/raptor", "deps/lv2kit", "deps/ardour",
        "deps/lv2kit/build"] : List String), w.isdir d = true)
    (hpkgs : ∀ x ∈ SYSTEM_DEPENDENCIES, x ∈ installedPackages w) :
    (mainScript w).2
      = [pacmanQq,
         wafInv [] ("deps/jack2") ("waf") [] true true,
         autogenInv ("deps/liblo"), makeInstallInv ("deps/liblo"),
         autogenInv ("deps/libltc"), makeInstallInv ("deps/libltc"),
         autogenInv ("deps/raptor"), makeInstallInv ("deps/raptor"),
         autogenInv ("deps/LRDF"), makeInstallInv ("deps/LRDF"),
         mesonConfigureInv ["-Dcxx=true"] ("deps/lv2kit/build"),
         mesonCompileInv ("deps/lv2kit/build"), mesonInstallInv ("deps/lv2kit/build"),
         wafInv ["--disable-tests"] ("deps/aubio") ("../ardour/waf") [] true false,
         ardourInv v] ∧
    ((mainScript w).2).filter isCloneCmd = [] ∧
    ((mainScript w).2).filter isPatchCmd = [] ∧
    ((mainScript w).2).filter isInstallCmd = [] := by
  have htoi := toInstall_nil_of_all_installed w hpkgs
  have e1 : ("deps" ++ sep ++ lastSegment ("https://github.com/jackaudio/jack2"))
      = "deps/jack2" := by decide
  have e2 : ("deps" ++ sep ++ lastSegment ("https://github.com/aubio/aubio"))
      = "deps/aubio" := by decide
  have e3 : ("deps" ++ sep ++ lastSegment ("https://github.com/radarsat1/liblo"))
      = "deps/liblo" := by decide
  have e4 : ("deps" ++ sep ++ lastSegment ("https://github.com/x42/libltc"))
      = "deps/libltc" := by decide
  have e5 : ("deps" ++ sep ++ lastSegment ("https://github.com/swh/LRDF"))
      = "deps/LRDF" := by decide
  have e6 : ("deps" ++ sep ++ lastSegment ("https://github.com/dajobe/raptor"))
      = "deps/raptor" := by decide
  have e7 : ("deps" ++ sep ++ lastSegment ("https://github.com/lv2/lv2kit"))
      = "deps/lv2kit" := by decide
  have e8 : ("deps" ++ sep ++ lastSegment ("git://git.ardour.org/ardour/ardour"))
      = "deps/ardour" := by decide
  have e9 : ("deps/lv2kit" ++ sep ++ "build" : String) = "deps/lv2kit/build" := by decide
  have hfetch : fetchTrace w = [] := by
    unfold fetchTrace cloneStep
    rw [e1, e2, e3, e4, e5, e6, e7, e8]
    rw [hdirs ("deps/jack2") (by simp), hdirs ("deps/aubio") (by simp),
      hdirs ("deps/liblo") (by simp), hdirs ("deps/libltc") (by simp),
      hdirs ("deps/LRDF") (by simp), hdirs ("deps/raptor") (by simp),
      hdirs ("deps/lv2kit") (by simp), hdirs ("deps/ardour") (by simp)]
    simp
  have hmesonT : mesonTrace w ["-Dcxx=true"] ("deps/lv2kit")
      = [mesonConfigureInv ["-Dcxx=true"] ("deps/lv2kit/build"),
         mesonCompileInv ("deps/lv2kit/build"), mesonInstallInv ("deps/lv2kit/build")] := by
    unfold mesonTrace
    rw [e9, hdirs ("deps/lv2kit/build") (by simp)]
    simp
  have ht : (mainScript w).2
      = [pacmanQq,
         wafInv [] ("deps/jack2") ("waf") [] true true,
         autogenInv ("deps/liblo"), makeInstallInv ("deps/liblo"),
         autogenInv ("deps/libltc"), makeInstallInv ("deps/libltc"),
         autogenInv ("deps/raptor"), makeInstallInv ("deps/raptor"),
         autogenInv ("deps/LRDF"), makeInstallInv ("deps/LRDF"),
         mesonConfigureInv ["-Dcxx=true"] ("deps/lv2kit/build"),
         mesonCompileInv ("deps/lv2kit/build"), mesonInstallInv ("deps/lv2kit/build"),
         wafInv ["--disable-tests"] ("deps/aubio") ("../ardour/waf") [] true false,
         ardourInv v] := by
    rw [mainScript_eval w v h0 hm hp]
    simp [installStep, htoi, hfetch, buildLibsTrace, hmesonT]
  refine ⟨ht, ?_, ?_, ?_⟩ <;> rw [ht] <;> rfl

/-- Witness for C1: the second-run world satisfies every hypothesis and
its trace is the pacman query plus the fifteen build commands. -/
theorem second_run_spawns_builds_only_witness :
    (mainScript secondRunWorld).2
      = [pacmanQq,
         wafInv [] ("deps/jack2") ("waf") [] true true,
         autogenInv ("deps/liblo"), makeInstallInv ("deps/liblo"),
         autogenInv ("deps/libltc"), makeInstallInv ("deps/libltc"),
         autogenInv ("deps/raptor"), makeInstallInv ("deps/raptor"),
         autogenInv ("deps/LRDF"), makeInstallInv ("deps/LRDF"),
         mesonConfigureInv ["-Dcxx=true"] ("deps/lv2kit/build"),
         mesonCompileInv ("deps/lv2kit/build"), mesonInstallInv ("deps/lv2kit/build"),
         wafInv ["--disable-tests"] ("deps/aubio") ("../ardour/waf") [] true false,
         ardourInv ("P")] ∧
    ((mainScript secondRunWorld).2).filter isCloneCmd = [] ∧
    ((mainScript secondRunWorld).2).filter isPatchCmd = [] ∧
    ((mainScript secondRunWorld).2).filter isInstallCmd = [] :=
  second_run_spawns_builds_only secondRunWorld ("P") (fun _ => rfl) rfl rfl
    (by intro d hd; rfl)
    (by
      intro x hx
      have hs : installedPackages secondRunWorld = SYSTEM_DEPENDENCIES ++ [""] := by
        show pySplitOn ('\n') (joinLines SYSTEM_DEPENDENCIES) = _
        exact pySplitOn_joinLines SYSTEM_DEPENDENCIES (by decide)
      rw [hs]
      exact List.mem_append_left _ hx)

theorem installStep_no_build (w : World) :
    (installStep w).filter isBuildCmd = [] := by
  unfold installStep
  by_cases h : toInstall w = []
  · simp [h]
  · have hfalse : isBuildCmd (pacmanS (toInstall w)) = false := rfl
    simp [h, hfalse]

theorem cloneStep_no_build (w : World) (url targetDir : String) (ps : List String) :
    (cloneStep w url targetDir ps).filter isBuildCmd = [] := by
  rw [List.filter_eq_nil_iff]
  intro a ha
  unfold cloneStep at ha
  by_cases hc : w.isdir (targetDir ++ sep ++ lastSegment url) = true
  · rw [if_pos hc] at ha
    simp at ha
  · rw [if_neg hc] at ha
    simp only [List.mem_cons] at ha
    rcases ha with rfl | ha
    · have : isBuildCmd (cloneInv url targetDir) = false := rfl
      simp [this]
    · rcases List.mem_map.mp ha with ⟨p, _, rfl⟩
      have : isBuildCmd (patchInv p) = false := rfl
      simp [this]

theorem fetchTrace_no_build (w : World) :
    (fetchTrace w).filter isBuildCmd = [] := by
  unfold fetchTrace
  simp [List.filter_append, cloneStep_no_build]

/-- C6: in every successful run the build-tool invocations of the whole
trace are exactly, in order: jack2 (waf), liblo, libltc, raptor, LRDF
(autotools, two commands each), lv2kit (meson, setup only when its build
directory is missing, then configure, compile, install), aubio (waf), and
the application build last. -/
theorem builds_run_in_fixed_order (w : World) (v : String)
    (h0 : ∀ inv, w.exitCode inv = 0)
    (hm : w.osenv ("MSYSTEM") = some ("MINGW64"))
    (hp : w.osenv ("PKG_CONFIG_PATH") = some v) :
    ((mainScript w).2).filter isBuildCmd
      = [wafInv [] ("deps/jack2") ("waf") [] true true,
         autogenInv ("deps/liblo"), makeInstallInv ("deps/liblo"),
         autogenInv ("deps/libltc"), makeInstallInv ("deps/libltc"),
         autogenInv ("deps/raptor"), makeInstallInv ("deps/raptor"),
         autogenInv ("deps/LRDF"), makeInstallInv ("deps/LRDF")]
        ++ ((if w.isdir ("deps/lv2kit" ++ sep ++ "build") then []
             else [mesonSetupInv ("deps/lv2kit")])
            ++ [mesonConfigureInv ["-Dcxx=true"] ("deps/lv2kit" ++ sep ++ "build"),
                mesonCompileInv ("deps/lv2kit" ++ sep ++ "build"),
                mesonInstallInv ("deps/lv2kit" ++ sep ++ "build")])
        ++ [wafInv ["--disable-tests"] ("deps/aubio") ("../ardour/waf") [] true false,
            ardourInv v] := by
  have ht : (mainScript w).2
      = (pacmanQq :: installStep w) ++ fetchTrace w ++ buildLibsTrace w ++ [ardourInv v] := by
    rw [mainScript_eval w v h0 hm hp]
  have hQq : isBuildCmd pacmanQq = false := rfl
  have hbuild : (buildLibsTrace w).filter isBuildCmd
      = [wafInv [] ("deps/jack2") ("waf") [] true true,
         autogenInv ("deps/liblo"), makeInstallInv ("deps/liblo"),
         autogenInv ("deps/libltc"), makeInstallInv ("deps/libltc"),
         autogenInv ("deps/raptor"), makeInstallInv ("deps/raptor"),
         autogenInv ("deps/LRDF"), makeInstallInv ("deps/LRDF")]
        ++ ((if w.isdir ("deps/lv2kit" ++ sep ++ "build") then []
             else [mesonSetupInv ("deps/lv2kit")])
            ++ [mesonConfigureInv ["-Dcxx=true"] ("deps/lv2kit" ++ sep ++ "build"),
                mesonCompileInv ("deps/lv2kit" ++ sep ++ "build"),
                mesonInstallInv ("deps/lv2kit" ++ sep ++ "build")])
        ++ [wafInv ["--disable-tests"] ("deps/aubio") ("../ardour/waf") [] true false] := by
    unfold buildLibsTrace mesonTrace
    by_cases hc : w.isdir ("deps/lv2kit" ++ sep ++ "build") = true
    · rw [if_pos hc]
      rfl
    · rw [if_neg hc]
      rfl
  have hard : isBuildCmd (ardourInv v) = true := rfl
  rw [ht]
  rw [List.filter_append, List.filter_append, List.filter_append]
  rw [fetchTrace_no_build w]
  rw [hbuild]
  rw [List.filter_cons, installStep_no_build w]
  simp [hQq, hard, List.append_assoc]

/-- Witness for C6: on a fresh successful run the build commands appear in
exactly the documented order, application last. -/
theorem builds_run_in_fixed_order_witness :
    ((mainScript freshWorld).2).filter isBuildCmd
      = [wafInv [] ("deps/jack2") ("waf") [] true true,
         autogenInv ("deps/liblo"), makeInstallInv ("deps/liblo"),
         autogenInv ("deps/libltc"), makeInstallInv ("deps/libltc"),
         autogenInv ("deps/raptor"), makeInstallInv ("deps/raptor"),
         autogenInv ("deps/LRDF"), makeInstallInv ("deps/LRDF")]
        ++ ((if freshWorld.isdir ("deps/lv2kit" ++ sep ++ "build") then []
             else [mesonSetupInv ("deps/lv2kit")])
            ++ [mesonConfigureInv ["-Dcxx=true"] ("deps/lv2kit" ++ sep ++ "build"),
                mesonCompileInv ("deps/lv2kit" ++ sep ++ "build"),
                mesonInstallInv ("deps/lv2kit" ++ sep ++ "build")])
        ++ [wafInv ["--disable-tests"] ("deps/aubio") ("../ardour/waf") [] true false,
            ardourInv ("P")] :=
  builds_run_in_fixed_order freshWorld ("P") (fun _ => rfl) rfl rfl
